import Mathlib

/-!
Verification of the MediLink symptom-checker core (`medilink.py`):
the symptom vocabulary, the red-flag evaluator `red_flag_messages`,
and the condition scorer `score_conditions`.

The selected-symptom set is modelled as a `List String`; the source code
only ever tests membership (`in sel` on `set(selected)`), which `∈` on the
list models faithfully.  The stable CPython `list.sort` with a score key
and `reverse=True` is modelled by `List.insertionSort` with the relation
"score not smaller", which is stable and sorts descending.
-/

namespace Medilink

/-- The symptom vocabulary `SYMPTOMS` from `medilink.py`. -/
def SYMPTOMS : List String :=
  ["fever", "headache", "chills", "vomiting", "diarrhea", "abdominal pain",
   "cough", "sore throat", "runny nose", "difficulty breathing",
   "chest pain", "fatigue", "loss of appetite", "joint pain",
   "rash", "dizziness", "high temperature (≥38°C)", "bloody stool",
   "shortness of breath", "sweating", "nausea", "weight loss", "night sweats",
   "persistent cough", "frequent urination", "excessive thirst", "stiffness", "swelling"]

/-- The red-flag table `RED_FLAGS` (key, message), in dict insertion order. -/
def RED_FLAGS : List (String × String) :=
  [("chest pain", "Chest pain can indicate a heart or lung emergency."),
   ("difficulty breathing", "Breathing difficulty is an emergency sign."),
   ("shortness of breath", "Shortness of breath may require urgent care."),
   ("bloody stool", "Blood in stool can be serious; seek urgent care."),
   ("high temperature (≥38°C)", "High fever with other symptoms may need urgent care."),
   ("persistent vomiting", "Risk of dehydration; seek care if severe."),
   ("severe abdominal pain", "Could indicate appendicitis or another emergency."),
   ("sudden weakness or slurred speech", "Possible stroke — seek emergency care immediately.")]

/-- A condition profile: name, weighted symptom table (in dict insertion
order), advisory text and threshold. -/
structure Condition where
  name : String
  weights : List (String × Nat)
  advice : String
  threshold : Nat
deriving DecidableEq

def malaria : Condition :=
  { name := "Malaria"
    weights := [("fever", 3), ("chills", 2), ("headache", 2), ("fatigue", 1),
                ("high temperature (≥38°C)", 2), ("vomiting", 1)]
    advice := "Possible malaria. Rest, hydrate, and seek testing/treatment at a clinic."
    threshold := 4 }

def typhoid : Condition :=
  { name := "Typhoid"
    weights := [("fever", 2), ("abdominal pain", 2), ("headache", 1), ("diarrhea", 2),
                ("loss of appetite", 1), ("vomiting", 1)]
    advice := "Possible typhoid. Drink clean water and see a doctor for testing."
    threshold := 4 }

def commonCold : Condition :=
  { name := "Common Cold / Flu"
    weights := [("cough", 1), ("sore throat", 2), ("runny nose", 2), ("fatigue", 1),
                ("headache", 1), ("fever", 1)]
    advice := "Likely a cold or flu. Rest, fluids, and over-the-counter symptomatic care."
    threshold := 3 }

def covid : Condition :=
  { name := "COVID-19 (possible)"
    weights := [("fever", 2), ("cough", 2), ("sore throat", 1), ("loss of appetite", 1),
                ("fatigue", 2), ("difficulty breathing", 3)]
    advice := "Symptoms may match a respiratory infection such as COVID-19. Isolate and seek testing if available."
    threshold := 4 }

def lowerRespiratory : Condition :=
  { name := "Lower Respiratory Infection / Asthma"
    weights := [("cough", 2), ("difficulty breathing", 3), ("chest pain", 2),
                ("shortness of breath", 3), ("fatigue", 1)]
    advice := "Possible chest infection or asthma exacerbation. Seek medical help if breathing is hard."
    threshold := 4 }

def gastroenteritis : Condition :=
  { name := "Gastroenteritis / Food Poisoning"
    weights := [("vomiting", 2), ("diarrhea", 2), ("abdominal pain", 1), ("nausea", 1),
                ("high temperature (≥38°C)", 1)]
    advice := "Possible stomach infection or food poisoning. Hydrate with ORS; seek care if persistent."
    threshold := 3 }

def dengue : Condition :=
  { name := "Dengue (consider regionally)"
    weights := [("fever", 2), ("headache", 1), ("joint pain", 2), ("rash", 1),
                ("high temperature (≥38°C)", 2)]
    advice := "Dengue possible—avoid NSAIDs, hydrate, and seek evaluation."
    threshold := 4 }

def diabetes : Condition :=
  { name := "Diabetes (possible indicators)"
    weights := [("frequent urination", 3), ("excessive thirst", 3), ("fatigue", 1),
                ("weight loss", 2)]
    advice := "Symptoms suggesting diabetes. See a clinic for blood sugar testing."
    threshold := 4 }

def tuberculosis : Condition :=
  { name := "Tuberculosis (possible)"
    weights := [("persistent cough", 3), ("weight loss", 2), ("night sweats", 2),
                ("fever", 1)]
    advice := "Persistent cough with weight loss/night sweats may suggest TB. Seek testing at a clinic."
    threshold := 4 }

def arthritis : Condition :=
  { name := "Arthritis (possible)"
    weights := [("joint pain", 2), ("stiffness", 2), ("swelling", 2)]
    advice := "Joint pain and stiffness may indicate arthritis or inflammatory condition. See a clinician for evaluation."
    threshold := 3 }

def heartAttack : Condition :=
  { name := "Heart Attack (🚨 EMERGENCY)"
    weights := [("chest pain", 4), ("shortness of breath", 4), ("sweating", 2)]
    advice := "Severe chest pain with breathlessness and sweating could indicate a heart attack. Call emergency services immediately."
    threshold := 6 }

def stroke : Condition :=
  { name := "Stroke (🚨 EMERGENCY suggestion)"
    weights := [("sudden weakness or slurred speech", 5), ("dizziness", 2),
                ("sudden severe headache", 3)]
    advice := "Sudden weakness or slurred speech may indicate stroke. Seek emergency care immediately."
    threshold := 5 }

/-- The condition table `CONDITIONS` in dict insertion order. -/
def CONDITIONS : List Condition :=
  [malaria, typhoid, commonCold, covid, lowerRespiratory, gastroenteritis,
   dengue, diabetes, tuberculosis, arthritis, heartAttack, stroke]

/-- The contribution of one weight-table entry `(s, w)` of a profile to the
score, given the selected set `sel` — the body of the inner loop of
`score_conditions`: full weight on direct membership, otherwise the
breathing synonym bridges (full weight) and the cough half-credit rule
(`int(w/2)`), each an independent `if` whose effects add up. -/
def symContribution (sel : List String) (s : String) (w : Nat) : Nat :=
  if s ∈ sel then w
  else
    (if s = "shortness of breath" ∧ "difficulty breathing" ∈ sel then w else 0) +
    (if s = "difficulty breathing" ∧ "shortness of breath" ∈ sel then w else 0) +
    (if s = "persistent cough" ∧ "cough" ∈ sel ∧ "persistent cough" ∉ sel then w / 2 else 0)

/-- The total score of a profile: the sum of the entry contributions, in
weight-table order. -/
def condScore (sel : List String) (c : Condition) : Nat :=
  (c.weights.map fun p => symContribution sel p.1 p.2).sum

/-- The result tuple `(cond, score, advice, threshold)` appended for one
profile. -/
def condEntry (sel : List String) (c : Condition) : String × Nat × String × Nat :=
  (c.name, condScore sel c, c.advice, c.threshold)

/-- The comparison used by the descending sort on the score component:
`a` may precede `b` when the score of `a` is at least the score of `b`. -/
def scoreDesc (a b : String × Nat × String × Nat) : Prop := b.2.1 ≤ a.2.1

instance : DecidableRel scoreDesc := fun a b => Nat.decLe b.2.1 a.2.1

instance : IsTotal (String × Nat × String × Nat) scoreDesc :=
  ⟨fun a b => Nat.le_total b.2.1 a.2.1⟩

instance : IsTrans (String × Nat × String × Nat) scoreDesc :=
  ⟨fun _ _ _ hab hbc => Nat.le_trans hbc hab⟩

/-- `score_conditions`: one entry per profile in table order, then a stable
descending sort on the score component. -/
def score_conditions (sel : List String) : List (String × Nat × String × Nat) :=
  List.insertionSort scoreDesc (CONDITIONS.map (condEntry sel))

/-- The messages one red-flag table row `(key, msg)` appends for a given
selected set: the direct-match test plus the three hard-coded mapping
tests, in source order. -/
def flagStep (sel : List String) (kv : String × String) : List String :=
  (if kv.1 ∈ sel then [kv.2] else []) ++
  (if kv.1 = "persistent vomiting" ∧ "vomiting" ∈ sel then [kv.2] else []) ++
  (if kv.1 = "severe abdominal pain" ∧ "abdominal pain" ∈ sel then [kv.2] else []) ++
  (if kv.1 = "sudden weakness or slurred speech" ∧
      ("dizziness" ∈ sel ∨ "slurred speech" ∈ sel ∨ "sudden weakness" ∈ sel)
   then [kv.2] else [])

/-- The compound chest-pain/breathing warning appended after the table loop. -/
def COMBO_MSG : String :=
  "Combination of chest pain and breathing difficulty — this may be life-threatening."

/-- The raw message list of `red_flag_messages` before deduplication. -/
def rawFlagMsgs (sel : List String) : List String :=
  (RED_FLAGS.map (flagStep sel)).flatten ++
    (if "chest pain" ∈ sel ∧ ("difficulty breathing" ∈ sel ∨ "shortness of breath" ∈ sel)
     then [COMBO_MSG] else [])

/-- First-occurrence deduplication, the semantics of
`list(dict.fromkeys(msgs))`: keep an element only when it has not been
seen before. -/
def dedupAux (seen : List String) : List String → List String
  | [] => []
  | a :: l => if a ∈ seen then dedupAux seen l else a :: dedupAux (a :: seen) l

/-- `red_flag_messages`: the fired messages in rule order, deduplicated
keeping first occurrences. -/
def red_flag_messages (sel : List String) : List String :=
  dedupAux [] (rawFlagMsgs sel)

/-- The non-vocabulary labels that the two functions nevertheless test for:
red-flag keys and mapping phrases, and weight keys of the stroke profile,
that do not occur in `SYMPTOMS`. -/
def AUX_LABELS : List String :=
  ["persistent vomiting", "severe abdominal pain", "sudden weakness or slurred speech",
   "sudden severe headache", "slurred speech", "sudden weakness"]

/-! ### Helper lemmas -/

/-- One weight-table entry never contributes less after a further symptom is
selected. -/
theorem symContribution_le_cons (sel : List String) (x s : String) (w : Nat) :
    symContribution sel s w ≤ symContribution (x :: sel) s w := by
  unfold symContribution
  by_cases hs : s ∈ sel
  · simp [hs, List.mem_cons.mpr (Or.inr hs)]
  · by_cases hsx : s = x
    · subst hsx
      simp only [List.mem_cons_self, if_true, hs, if_false]
      split_ifs <;> simp_all [Nat.div_le_self]
    · have hs' : s ∉ x :: sel := by
        simp [List.mem_cons, hsx, hs]
      simp only [hs, hs', if_false]
      split_ifs <;> simp_all [List.mem_cons]

/-- Membership in the first-occurrence deduplication: an element of the
output is an element of the input that is not among the already-seen ones. -/
theorem mem_dedupAux {x : String} :
    ∀ (seen l : List String), x ∈ dedupAux seen l ↔ x ∈ l ∧ x ∉ seen := by
  intro seen l
  induction l generalizing seen with
  | nil => simp [dedupAux]
  | cons a l ih =>
      by_cases ha : a ∈ seen
      · simp only [dedupAux, if_pos ha, ih, List.mem_cons]
        constructor
        · rintro ⟨h1, h2⟩; exact ⟨Or.inr h1, h2⟩
        · rintro ⟨h1 | h1, h2⟩
          · exact absurd (h1 ▸ ha) h2
          · exact ⟨h1, h2⟩
      · simp only [dedupAux, if_neg ha, List.mem_cons, ih]
        constructor
        · rintro (rfl | ⟨h1, h2⟩)
          · exact ⟨Or.inl rfl, ha⟩
          · exact ⟨Or.inr h1, fun hx => h2 (Or.inr hx)⟩
        · rintro ⟨rfl | h1, h2⟩
          · exact Or.inl rfl
          · by_cases hxa : x = a
            · exact Or.inl hxa
            · exact Or.inr ⟨h1, fun h => h.elim hxa h2⟩

/-- First-occurrence deduplication yields a duplicate-free list. -/
theorem nodup_dedupAux : ∀ (seen l : List String), (dedupAux seen l).Nodup := by
  intro seen l
  induction l generalizing seen with
  | nil => simp [dedupAux]
  | cons a l ih =>
      by_cases ha : a ∈ seen
      · simpa [dedupAux, if_pos ha] using ih seen
      · simp only [dedupAux, if_neg ha, List.nodup_cons]
        refine ⟨fun hmem => ?_, ih (a :: seen)⟩
        exact ((mem_dedupAux _ _).mp hmem).2 (List.mem_cons_self a seen)

/-- A message is returned by `red_flag_messages` exactly when some trigger
produced it. -/
theorem mem_red_flag_messages {x : String} {sel : List String} :
    x ∈ red_flag_messages sel ↔ x ∈ rawFlagMsgs sel := by
  simp [red_flag_messages, mem_dedupAux]

/-- Prepending a label different from every string an entry contribution
tests leaves the contribution unchanged. -/
theorem symContribution_cons_of_ne {x s : String} (sel : List String) (w : Nat)
    (hsx : s ≠ x) (h1 : x ≠ "difficulty breathing") (h2 : x ≠ "shortness of breath")
    (h3 : x ≠ "cough") (h4 : x ≠ "persistent cough") :
    symContribution (x :: sel) s w = symContribution sel s w := by
  unfold symContribution
  simp only [List.mem_cons, hsx, Ne.symm h1, Ne.symm h2, Ne.symm h3, Ne.symm h4,
    false_or, or_false]

/-- Prepending a label foreign to every weight key of a profile and to the
bridge labels leaves the score of the profile unchanged. -/
theorem condScore_cons_of_ne {x : String} (sel : List String) (c : Condition)
    (hkeys : ∀ p ∈ c.weights, p.1 ≠ x)
    (h1 : x ≠ "difficulty breathing") (h2 : x ≠ "shortness of breath")
    (h3 : x ≠ "cough") (h4 : x ≠ "persistent cough") :
    condScore (x :: sel) c = condScore sel c := by
  unfold condScore
  congr 1
  refine List.map_congr_left ?_
  intro p hp
  exact symContribution_cons_of_ne sel p.2 (hkeys p hp) h1 h2 h3 h4

/-- Prepending a label different from every string a red-flag row tests
leaves the messages appended for that row unchanged. -/
theorem flagStep_cons_of_ne {x : String} (sel : List String) (kv : String × String)
    (hk : kv.1 ≠ x) (h5 : x ≠ "vomiting") (h6 : x ≠ "abdominal pain") (h7 : x ≠ "dizziness")
    (h8 : x ≠ "slurred speech") (h9 : x ≠ "sudden weakness") :
    flagStep (x :: sel) kv = flagStep sel kv := by
  unfold flagStep
  simp only [List.mem_cons, hk, Ne.symm h5, Ne.symm h6, Ne.symm h7, Ne.symm h8,
    Ne.symm h9, false_or]

/-! ### Claims -/

/-- Claim C1 (counterexample): the claim that every label outside the
`SYMPTOMS` vocabulary fires no warning and contributes zero to every score
is false: "slurred speech" is not in the vocabulary yet fires the stroke
red flag, and "sudden severe headache" is not in the vocabulary yet
contributes 3 to the score of the Stroke profile. -/
theorem unknown_label_counterexample :
    "slurred speech" ∉ SYMPTOMS ∧
    red_flag_messages ["slurred speech"] =
      ["Possible stroke — seek emergency care immediately."] ∧
    "sudden severe headache" ∉ SYMPTOMS ∧
    stroke ∈ CONDITIONS ∧ condScore ["sudden severe headache"] stroke = 3 := by
  decide

/-- Claim C1 (amended): any label outside both the `SYMPTOMS` vocabulary and
the six auxiliary trigger/weight phrases of `AUX_LABELS` is silently ignored
by both functions: adding it to the input changes neither the output of
`score_conditions` nor the output of `red_flag_messages`. -/
theorem unknown_label_ignored :
    ∀ (x : String) (sel : List String), x ∉ SYMPTOMS → x ∉ AUX_LABELS →
      score_conditions (x :: sel) = score_conditions sel ∧
      red_flag_messages (x :: sel) = red_flag_messages sel := by
  intro x sel hx ha
  have hS : ∀ t ∈ SYMPTOMS, x ≠ t := fun t ht he => hx (he ▸ ht)
  have hA : ∀ t ∈ AUX_LABELS, x ≠ t := fun t ht he => ha (he ▸ ht)
  have h1 : x ≠ "difficulty breathing" := hS _ (by decide)
  have h2 : x ≠ "shortness of breath" := hS _ (by decide)
  have h3 : x ≠ "cough" := hS _ (by decide)
  have h4 : x ≠ "persistent cough" := hS _ (by decide)
  have h5 : x ≠ "vomiting" := hS _ (by decide)
  have h6 : x ≠ "abdominal pain" := hS _ (by decide)
  have h7 : x ≠ "dizziness" := hS _ (by decide)
  have h8 : x ≠ "slurred speech" := hA _ (by decide)
  have h9 : x ≠ "sudden weakness" := hA _ (by decide)
  have h10 : x ≠ "chest pain" := hS _ (by decide)
  have hckeys : ∀ c ∈ CONDITIONS, ∀ p ∈ c.weights, p.1 ∈ SYMPTOMS ∨ p.1 ∈ AUX_LABELS := by
    decide
  have hfkeys : ∀ kv ∈ RED_FLAGS, kv.1 ∈ SYMPTOMS ∨ kv.1 ∈ AUX_LABELS := by decide
  constructor
  · unfold score_conditions
    congr 1
    refine List.map_congr_left ?_
    intro c hc
    unfold condEntry
    rw [condScore_cons_of_ne sel c ?_ h1 h2 h3 h4]
    intro p hp he
    rcases hckeys c hc p hp with h | h
    · exact hS _ h he.symm
    · exact hA _ h he.symm
  · unfold red_flag_messages rawFlagMsgs
    have hmap : RED_FLAGS.map (flagStep (x :: sel)) = RED_FLAGS.map (flagStep sel) := by
      refine List.map_congr_left ?_
      intro kv hkv
      refine flagStep_cons_of_ne sel kv ?_ h5 h6 h7 h8 h9
      intro he
      rcases hfkeys kv hkv with h | h
      · exact hS _ h he.symm
      · exact hA _ h he.symm
    rw [hmap]
    simp only [List.mem_cons, Ne.symm h10, Ne.symm h1, Ne.symm h2, false_or]

/-- Claim C1 witness: the foreign label "toothache" changes neither output. -/
theorem unknown_label_ignored_witness :
    score_conditions ["toothache", "fever"] = score_conditions ["fever"] ∧
    red_flag_messages ["toothache", "fever"] = red_flag_messages ["fever"] :=
  unknown_label_ignored "toothache" ["fever"] (by decide) (by decide)

/-- Claim C2: for every input, `score_conditions` returns as many entries as
there are condition profiles, for each profile it returns the tuple carrying
the raw score of that profile together with its advisory text and threshold,
and the returned condition names are pairwise distinct — hence exactly one
entry per profile, threshold met or not. -/
theorem checker_completeness : ∀ sel : List String,
    (score_conditions sel).length = CONDITIONS.length ∧
    (∀ c ∈ CONDITIONS,
      (c.name, condScore sel c, c.advice, c.threshold) ∈ score_conditions sel) ∧
    ((score_conditions sel).map Prod.fst).Nodup := by
  intro sel
  have hperm : (score_conditions sel).Perm (CONDITIONS.map (condEntry sel)) :=
    List.perm_insertionSort _ _
  refine ⟨by rw [hperm.length_eq, List.length_map], fun c hc => ?_, ?_⟩
  · exact hperm.mem_iff.mpr (List.mem_map_of_mem _ hc)
  · refine ((hperm.map Prod.fst).nodup_iff).mpr ?_
    rw [List.map_map]
    have he : (Prod.fst ∘ condEntry sel) = Condition.name := rfl
    rw [he]
    decide

/-- Claim C2 witness: on the input `["fever"]`, the Malaria profile gets
exactly its entry, and the result has one entry per profile. -/
theorem checker_completeness_witness :
    (score_conditions ["fever"]).length = CONDITIONS.length ∧
    (malaria.name, condScore ["fever"] malaria, malaria.advice, malaria.threshold) ∈
      score_conditions ["fever"] :=
  ⟨(checker_completeness ["fever"]).1,
   (checker_completeness ["fever"]).2.1 malaria (by decide)⟩

/-- Claim C3: score monotonicity — selecting one more symptom never
decreases the score `score_conditions` computes for any profile. -/
theorem score_monotone : ∀ (c : Condition) (sel : List String) (x : String),
    condScore sel c ≤ condScore (x :: sel) c := by
  intro c sel x
  unfold condScore
  induction c.weights with
  | nil => simp
  | cons p ps ih =>
      simp only [List.map_cons, List.sum_cons]
      exact Nat.add_le_add (symContribution_le_cons sel x p.1 p.2) ih

/-- Claim C4: the breathing synonym bridge is symmetric and full-credit in
both directions — a weight entry for either breathing label receives the
full weight when the input contains the other label — and consequently the
inputs `["difficulty breathing"]` and `["shortness of breath"]` give every
condition profile identical scores. -/
theorem breathing_bridge :
    (∀ (sel : List String) (s : String) (w : Nat),
        (s = "shortness of breath" ∧ "difficulty breathing" ∈ sel) ∨
        (s = "difficulty breathing" ∧ "shortness of breath" ∈ sel) →
        symContribution sel s w = w) ∧
    ∀ c ∈ CONDITIONS,
      condScore ["difficulty breathing"] c = condScore ["shortness of breath"] c := by
  constructor
  · rintro sel s w (⟨rfl, hdb⟩ | ⟨rfl, hsob⟩)
    · unfold symContribution
      by_cases hs : ("shortness of breath" : String) ∈ sel
      · simp [hs]
      · simp [hs, hdb]
    · unfold symContribution
      by_cases hs : ("difficulty breathing" : String) ∈ sel
      · simp [hs]
      · simp [hs, hsob]
  · decide

/-- Claim C4 witness: the Heart Attack profile entry for
"shortness of breath" of weight 4 receives the full 4 from
"difficulty breathing", and the two singleton inputs tie on that profile. -/
theorem breathing_bridge_witness :
    symContribution ["difficulty breathing"] "shortness of breath" 4 = 4 ∧
    condScore ["difficulty breathing"] heartAttack =
      condScore ["shortness of breath"] heartAttack :=
  ⟨breathing_bridge.1 ["difficulty breathing"] "shortness of breath" 4
     (Or.inl ⟨rfl, by decide⟩),
   breathing_bridge.2 heartAttack (by decide)⟩

/-- Claim C5: with plain "cough" selected but not "persistent cough", a
weight entry for "persistent cough" of weight `w` contributes exactly
`w / 2` (integer division); in particular on `["cough"]` the Tuberculosis
profile scores 1, not 3. -/
theorem cough_half_credit :
    (∀ (sel : List String) (w : Nat), "cough" ∈ sel → "persistent cough" ∉ sel →
        symContribution sel "persistent cough" w = w / 2) ∧
    condScore ["cough"] tuberculosis = 1 := by
  constructor
  · intro sel w hc hpc
    unfold symContribution
    simp [hpc, hc]
  · decide

/-- Claim C5 witness: the Tuberculosis weight 3 yields `3 / 2 = 1`. -/
theorem cough_half_credit_witness :
    symContribution ["cough"] "persistent cough" 3 = 3 / 2 :=
  cough_half_credit.1 ["cough"] 3 (by decide) (by decide)

/-- Claim C6: for every input the result of `score_conditions` is sorted by
score descending; two profiles listed in table order with equal scores keep
that relative order in the result (stability); and on the empty input every
profile scores 0 and the result is the table in declaration order. -/
theorem result_order : ∀ sel : List String,
    (score_conditions sel).Sorted scoreDesc ∧
    (∀ c₁ c₂ : Condition, [c₁, c₂].Sublist CONDITIONS →
        condScore sel c₁ = condScore sel c₂ →
        [condEntry sel c₁, condEntry sel c₂].Sublist (score_conditions sel)) ∧
    score_conditions [] = CONDITIONS.map fun c => (c.name, 0, c.advice, c.threshold) := by
  intro sel
  refine ⟨List.sorted_insertionSort _ _, fun c₁ c₂ hsub heq => ?_, by decide⟩
  have hmap : [condEntry sel c₁, condEntry sel c₂].Sublist (CONDITIONS.map (condEntry sel)) := by
    simpa using hsub.map (condEntry sel)
  refine List.pair_sublist_insertionSort ?_ hmap
  show condScore sel c₂ ≤ condScore sel c₁
  omega

/-- Claim C6 witness: on the empty input Malaria and Typhoid tie at score 0
and appear in table order in the result. -/
theorem result_order_witness :
    [malaria, typhoid].Sublist CONDITIONS ∧
    condScore [] malaria = condScore [] typhoid ∧
    [condEntry [] malaria, condEntry [] typhoid].Sublist (score_conditions []) :=
  ⟨by decide, by decide,
   (result_order []).2.1 malaria typhoid (by decide) (by decide)⟩

/-- Claim C7: whenever "chest pain" is selected together with
"difficulty breathing" or "shortness of breath", `red_flag_messages`
includes the distinct life-threatening-combination message; on the input
`["chest pain", "difficulty breathing"]` the result is exactly the three
distinct messages: chest pain, breathing difficulty, and the compound one. -/
theorem combo_flag :
    (∀ sel : List String, "chest pain" ∈ sel →
        "difficulty breathing" ∈ sel ∨ "shortness of breath" ∈ sel →
        COMBO_MSG ∈ red_flag_messages sel) ∧
    red_flag_messages ["chest pain", "difficulty breathing"] =
      ["Chest pain can indicate a heart or lung emergency.",
       "Breathing difficulty is an emergency sign.", COMBO_MSG] := by
  constructor
  · intro sel hcp hbr
    rw [mem_red_flag_messages]
    unfold rawFlagMsgs
    have hif : ("chest pain" ∈ sel ∧
        ("difficulty breathing" ∈ sel ∨ "shortness of breath" ∈ sel)) := ⟨hcp, hbr⟩
    simp [hif]
  · decide

/-- Claim C7 witness: chest pain with shortness of breath also fires the
compound message. -/
theorem combo_flag_witness :
    COMBO_MSG ∈ red_flag_messages ["chest pain", "shortness of breath"] :=
  combo_flag.1 ["chest pain", "shortness of breath"] (by decide) (by decide)

/-- Claim C8: `red_flag_messages` never returns two identical message texts
(first occurrence wins), and the empty input yields the empty result; the
function is total, so no input raises an error. -/
theorem flags_nodup : ∀ sel : List String,
    (red_flag_messages sel).Nodup ∧ red_flag_messages [] = [] := by
  intro sel
  exact ⟨nodup_dedupAux [] _, rfl⟩

/-- Claim C9: selecting the vocabulary label "dizziness" alone suffices to
fire the stroke red-flag rule, so its warning message is always returned
whenever "dizziness" is selected. -/
theorem dizziness_stroke :
    ∀ sel : List String, "dizziness" ∈ sel →
      "Possible stroke — seek emergency care immediately." ∈ red_flag_messages sel := by
  intro sel hd
  rw [mem_red_flag_messages]
  unfold rawFlagMsgs RED_FLAGS flagStep
  simp [hd]

/-- Claim C9 witness: the input `["dizziness"]` fires the stroke warning. -/
theorem dizziness_stroke_witness :
    "Possible stroke — seek emergency care immediately." ∈ red_flag_messages ["dizziness"] :=
  dizziness_stroke ["dizziness"] (by decide)

/-- Claim C10: the "Lower Respiratory Infection / Asthma" profile lists both
breathing labels, so a single selected breathing symptom is double-counted:
both singleton breathing inputs score 6 on that profile (3 direct plus 3 via
the bridge). -/
theorem lri_double_count :
    lowerRespiratory ∈ CONDITIONS ∧
    condScore ["difficulty breathing"] lowerRespiratory = 6 ∧
    condScore ["shortness of breath"] lowerRespiratory = 6 := by
  decide

end Medilink
